import Mathlib

/-!
Verification of the Mars lander simulator core (`src/lander.cpp`):
the explicit-Euler dynamics integrator `numerical_dynamics` and the
proportional `autopilot` controller.

The C++ globals (position, velocity, orientation, fuel, throttle,
parachute_status, stabilized_attitude, autopilot_enabled, delta_t) are
gathered into a `State` record; each C++ function becomes a `State → State`
function.  The physical constants and the external collaborator functions
declared in `lander.h` (which is not part of the sources here) are
abstracted as records of parameters (`Constants`, `Env`).  Real numbers
stand for the C++ `double`s.
-/

namespace Lander

/-- The parachute status enumeration from `lander.h`. -/
inductive ParachuteStatus where
  | NOT_DEPLOYED
  | DEPLOYED
  | LOST
deriving DecidableEq, Repr

export ParachuteStatus (NOT_DEPLOYED DEPLOYED LOST)

/-- The 3-component vector type `vector3d` of `lander.h`, with real
components standing for doubles. -/
@[ext]
structure vector3d where
  x : ℝ
  y : ℝ
  z : ℝ

namespace vector3d

instance : Add vector3d := ⟨fun a b => ⟨a.x + b.x, a.y + b.y, a.z + b.z⟩⟩

instance : Sub vector3d := ⟨fun a b => ⟨a.x - b.x, a.y - b.y, a.z - b.z⟩⟩

instance : Neg vector3d := ⟨fun a => ⟨-a.x, -a.y, -a.z⟩⟩

instance : SMul ℝ vector3d := ⟨fun k a => ⟨k * a.x, k * a.y, k * a.z⟩⟩

instance : Zero vector3d := ⟨⟨0, 0, 0⟩⟩

@[simp] theorem add_def (a b : vector3d) :
    a + b = ⟨a.x + b.x, a.y + b.y, a.z + b.z⟩ := rfl

@[simp] theorem sub_def (a b : vector3d) :
    a - b = ⟨a.x - b.x, a.y - b.y, a.z - b.z⟩ := rfl

@[simp] theorem neg_def (a : vector3d) : -a = ⟨-a.x, -a.y, -a.z⟩ := rfl

@[simp] theorem smul_def (k : ℝ) (a : vector3d) :
    k • a = ⟨k * a.x, k * a.y, k * a.z⟩ := rfl

@[simp] theorem zero_def : (0 : vector3d) = ⟨0, 0, 0⟩ := rfl

/-- `vector3d::abs`: the Euclidean magnitude `sqrt(x*x + y*y + z*z)`. -/
noncomputable def abs (a : vector3d) : ℝ :=
  Real.sqrt (a.x * a.x + a.y * a.y + a.z * a.z)

/-- `vector3d::norm`: the unit vector `v / v.abs()` (division of each
component by the magnitude; for the zero vector the C++ code divides by
zero, here real division by zero yields the zero vector). -/
noncomputable def norm (a : vector3d) : vector3d :=
  ⟨a.x / a.abs, a.y / a.abs, a.z / a.abs⟩

/-- `operator*` between two vectors in `lander.h`: the dot product. -/
def dot (a b : vector3d) : ℝ := a.x * b.x + a.y * b.y + a.z * b.z

end vector3d

/-- The physical constants of `lander.h`, read-only for a run. -/
structure Constants where
  GRAVITY : ℝ
  MARS_MASS : ℝ
  MARS_RADIUS : ℝ
  UNLOADED_LANDER_MASS : ℝ
  FUEL_CAPACITY : ℝ
  FUEL_DENSITY : ℝ
  DRAG_COEF_LANDER : ℝ
  DRAG_COEF_CHUTE : ℝ
  LANDER_SIZE : ℝ

/-- The global simulation state mutated by the C++ code. -/
structure State where
  position : vector3d
  velocity : vector3d
  orientation : vector3d
  fuel : ℝ
  throttle : ℝ
  parachute_status : ParachuteStatus
  stabilized_attitude : Bool
  autopilot_enabled : Bool
  delta_t : ℝ

/-- The external collaborator functions declared in `lander.h` and defined
outside the core sources; each reads the current global state. -/
structure Env where
  atmospheric_density : vector3d → ℝ
  thrust_wrt_world : State → vector3d
  safe_to_deploy_parachute : State → Bool
  attitude_stabilization : State → vector3d

/-- `Kh_const = 0.02` from `autopilot`, line 21. -/
def Kh_const : ℝ := 0.02

/-- `Kp_const = 0.5` from `autopilot`, line 21. -/
def Kp_const : ℝ := 0.5

/-- `Offset = 0.5` from `autopilot`, line 21. -/
def Offset : ℝ := 0.5

/-- `descent_rate = velocity*position.norm()` (`lander.cpp` line 22). -/
noncomputable def descent_rate (s : State) : ℝ :=
  s.velocity.dot s.position.norm

/-- `altitude = position.abs() - MARS_RADIUS` (`lander.cpp` line 23). -/
noncomputable def altitude (c : Constants) (s : State) : ℝ :=
  s.position.abs - c.MARS_RADIUS

/-- `Pout_const = Kp_const*(-(0.5 + Kh_const*altitude + descent_rate))`
(`lander.cpp` line 24). -/
noncomputable def Pout_const (c : Constants) (s : State) : ℝ :=
  Kp_const * (-(0.5 + Kh_const * altitude c s + descent_rate s))

open Classical in
/-- Lines 26–39 of `autopilot`: set `stabilized_attitude = true` and write
the throttle from the three-region map on `Pout_const`. -/
noncomputable def autopilot_control (c : Constants) (s : State) : State :=
  if Pout_const c s ≤ -Offset then
    { s with stabilized_attitude := true, throttle := 0 }
  else if Pout_const c s < 1 - Offset then
    { s with stabilized_attitude := true, throttle := Offset + Pout_const c s }
  else
    { s with stabilized_attitude := true, throttle := 1 }

open Classical in
/-- Lines 40–43 of `autopilot`: deploy the parachute when
`altitude <= 150000 && safe_to_deploy_parachute()`.  The C++ code has no
check of the current `parachute_status` here. -/
noncomputable def autopilot_chute (c : Constants) (env : Env) (s : State) : State :=
  if altitude c s ≤ 150000 ∧ env.safe_to_deploy_parachute s = true then
    { s with parachute_status := DEPLOYED }
  else
    s

/-- The `autopilot` function of `lander.cpp` lines 18–44: the throttle and
attitude writes of lines 21–39 followed by the parachute check of lines
40–43 (`position` and `velocity` are untouched by the first phase, so
`altitude` is the same in both phases, as in the single C++ body). -/
noncomputable def autopilot (c : Constants) (env : Env) (s : State) : State :=
  autopilot_chute c env (autopilot_control c s)

/-- `mass = (UNLOADED_LANDER_MASS+FUEL_CAPACITY*FUEL_DENSITY*fuel)`
(`lander.cpp` line 60). -/
def mass (c : Constants) (s : State) : ℝ :=
  c.UNLOADED_LANDER_MASS + c.FUEL_CAPACITY * c.FUEL_DENSITY * s.fuel

/-- `gravity_acceleration = (-GRAVITY*MARS_MASS*normalr/(modulusr*modulusr))`
(`lander.cpp` line 61). -/
noncomputable def gravity_acceleration (c : Constants) (s : State) : vector3d :=
  (-c.GRAVITY * c.MARS_MASS / (s.position.abs * s.position.abs)) • s.position.norm

/-- `drag_lander_acceleration` (`lander.cpp` line 62): half the density
times `DRAG_COEF_LANDER` times the cross-section `π*LANDER_SIZE²` times the
speed squared, along `normalv`, divided by the mass. -/
noncomputable def drag_lander_acceleration (c : Constants) (env : Env) (s : State) : vector3d :=
  ((0.5 * env.atmospheric_density s.position * c.DRAG_COEF_LANDER * 3.141592654 *
      c.LANDER_SIZE * c.LANDER_SIZE * (s.velocity.abs * s.velocity.abs)) / mass c s) •
    s.velocity.norm

/-- `thrust_acceleration = thrust_wrt_world()/mass` (`lander.cpp` line 63). -/
noncomputable def thrust_acceleration (c : Constants) (env : Env) (s : State) : vector3d :=
  ((1 : ℝ) / mass c s) • env.thrust_wrt_world s

/-- `drag_chute_acceleration` (`lander.cpp` line 64): as the lander drag
but with `DRAG_COEF_CHUTE` and area factor `20*LANDER_SIZE²`. -/
noncomputable def drag_chute_acceleration (c : Constants) (env : Env) (s : State) : vector3d :=
  ((0.5 * env.atmospheric_density s.position * c.DRAG_COEF_CHUTE * 20 *
      c.LANDER_SIZE * c.LANDER_SIZE * (s.velocity.abs * s.velocity.abs)) / mass c s) •
    s.velocity.norm

open Classical in
/-- The net `acceleration` local of `lander.cpp` lines 68 and 74: with the
parachute deployed the chute drag is also subtracted. -/
noncomputable def acceleration (c : Constants) (env : Env) (s : State) : vector3d :=
  if s.parachute_status = DEPLOYED then
    gravity_acceleration c s - drag_lander_acceleration c env s -
      drag_chute_acceleration c env s + thrust_acceleration c env s
  else
    gravity_acceleration c s - drag_lander_acceleration c env s +
      thrust_acceleration c env s

/-- `lander.cpp` lines 69–70 and 75–76: `position = position + delta_t*velocity`
(the velocity variable still holds the old velocity when position is
assigned) and `velocity = velocity + delta_t*acceleration` (the acceleration
was computed from the incoming state on lines 60–64). -/
noncomputable def euler_update (c : Constants) (env : Env) (s : State) : State :=
  { s with
    position := s.position + s.delta_t • s.velocity
    velocity := s.velocity + s.delta_t • acceleration c env s }

open Classical in
/-- `lander.cpp` line 80: `if (autopilot_enabled) autopilot();`. -/
noncomputable def autopilot_phase (c : Constants) (env : Env) (s : State) : State :=
  if s.autopilot_enabled = true then autopilot c env s else s

open Classical in
/-- `lander.cpp` line 83: `if (stabilized_attitude) attitude_stabilization();`
— the external collaborator rewrites `orientation` only. -/
noncomputable def attitude_phase (env : Env) (s : State) : State :=
  if s.stabilized_attitude = true then
    { s with orientation := env.attitude_stabilization s }
  else
    s

/-- `numerical_dynamics` (`lander.cpp` lines 48–84): the Euler update of
position and velocity, then the optional autopilot call, then the optional
attitude stabilization. -/
noncomputable def numerical_dynamics (c : Constants) (env : Env) (s : State) : State :=
  attitude_phase env (autopilot_phase c env (euler_update c env s))

open Classical in
/-- Modelled from the spec: `lander.h` (the home of `vector3d`) is not
among the sources, and the spec requires that "normalization of the zero
vector ... must be explicitly guarded (division by zero)" and that a
zero-magnitude vector fed to normalization "fail fast with a clearly
identified arithmetic-domain error".  This is `vector3d::norm` with that
required guard: `none` is the arithmetic-domain error. -/
noncomputable def normChecked (a : vector3d) : Option vector3d :=
  if a.abs = 0 then none else some a.norm

open Classical in
/-- `numerical_dynamics` with the spec-mandated fail-fast guard on every
normalization it performs.  The structure of the C++ function is kept
exactly: lines 53–54 normalize `position` and `velocity` unconditionally
(before any branch on density, thrust or parachute status), so both guards
are evaluated on every tick. -/
noncomputable def numerical_dynamicsChecked (c : Constants) (env : Env) (s : State) :
    Option State := do
  let _normalr ← normChecked s.position
  let _normalv ← normChecked s.velocity
  pure (numerical_dynamics c env s)

/-! ### Helper lemmas: which fields each phase touches -/

theorem autopilot_control_position (c : Constants) (s : State) :
    (autopilot_control c s).position = s.position := by
  unfold autopilot_control; split_ifs <;> rfl

theorem autopilot_control_velocity (c : Constants) (s : State) :
    (autopilot_control c s).velocity = s.velocity := by
  unfold autopilot_control; split_ifs <;> rfl

theorem autopilot_control_fuel (c : Constants) (s : State) :
    (autopilot_control c s).fuel = s.fuel := by
  unfold autopilot_control; split_ifs <;> rfl

theorem autopilot_control_orientation (c : Constants) (s : State) :
    (autopilot_control c s).orientation = s.orientation := by
  unfold autopilot_control; split_ifs <;> rfl

theorem autopilot_control_parachute (c : Constants) (s : State) :
    (autopilot_control c s).parachute_status = s.parachute_status := by
  unfold autopilot_control; split_ifs <;> rfl

theorem autopilot_control_throttle (c : Constants) (s : State) :
    (autopilot_control c s).throttle =
      if Pout_const c s ≤ -Offset then 0
      else if Pout_const c s < 1 - Offset then Offset + Pout_const c s
      else 1 := by
  unfold autopilot_control; split_ifs <;> rfl

theorem autopilot_chute_position (c : Constants) (env : Env) (s : State) :
    (autopilot_chute c env s).position = s.position := by
  unfold autopilot_chute; split_ifs <;> rfl

theorem autopilot_chute_velocity (c : Constants) (env : Env) (s : State) :
    (autopilot_chute c env s).velocity = s.velocity := by
  unfold autopilot_chute; split_ifs <;> rfl

theorem autopilot_chute_fuel (c : Constants) (env : Env) (s : State) :
    (autopilot_chute c env s).fuel = s.fuel := by
  unfold autopilot_chute; split_ifs <;> rfl

theorem autopilot_chute_orientation (c : Constants) (env : Env) (s : State) :
    (autopilot_chute c env s).orientation = s.orientation := by
  unfold autopilot_chute; split_ifs <;> rfl

theorem autopilot_chute_throttle (c : Constants) (env : Env) (s : State) :
    (autopilot_chute c env s).throttle = s.throttle := by
  unfold autopilot_chute; split_ifs <;> rfl

theorem autopilot_chute_status (c : Constants) (env : Env) (s : State) :
    (autopilot_chute c env s).parachute_status =
      if altitude c s ≤ 150000 ∧ env.safe_to_deploy_parachute s = true then DEPLOYED
      else s.parachute_status := by
  unfold autopilot_chute; split_ifs <;> rfl

theorem autopilot_position (c : Constants) (env : Env) (s : State) :
    (autopilot c env s).position = s.position := by
  unfold autopilot; rw [autopilot_chute_position, autopilot_control_position]

theorem autopilot_velocity (c : Constants) (env : Env) (s : State) :
    (autopilot c env s).velocity = s.velocity := by
  unfold autopilot; rw [autopilot_chute_velocity, autopilot_control_velocity]

theorem autopilot_fuel (c : Constants) (env : Env) (s : State) :
    (autopilot c env s).fuel = s.fuel := by
  unfold autopilot; rw [autopilot_chute_fuel, autopilot_control_fuel]

theorem Pout_const_congr (c : Constants) (s t : State)
    (hp : t.position = s.position) (hv : t.velocity = s.velocity) :
    Pout_const c t = Pout_const c s := by
  unfold Pout_const altitude descent_rate; rw [hp, hv]

theorem autopilot_throttle_eq (c : Constants) (env : Env) (s : State) :
    (autopilot c env s).throttle =
      if Pout_const c s ≤ -Offset then 0
      else if Pout_const c s < 1 - Offset then Offset + Pout_const c s
      else 1 := by
  unfold autopilot; rw [autopilot_chute_throttle, autopilot_control_throttle]

theorem autopilot_status_eq (c : Constants) (env : Env) (s : State) :
    (autopilot c env s).parachute_status =
      if altitude c s ≤ 150000 ∧
          env.safe_to_deploy_parachute (autopilot_control c s) = true then DEPLOYED
      else s.parachute_status := by
  unfold autopilot
  rw [autopilot_chute_status, autopilot_control_parachute]
  have halt : altitude c (autopilot_control c s) = altitude c s := by
    unfold altitude; rw [autopilot_control_position]
  rw [halt]

theorem autopilot_phase_position (c : Constants) (env : Env) (s : State) :
    (autopilot_phase c env s).position = s.position := by
  unfold autopilot_phase; split_ifs
  · rw [autopilot_position]
  · rfl

theorem autopilot_phase_velocity (c : Constants) (env : Env) (s : State) :
    (autopilot_phase c env s).velocity = s.velocity := by
  unfold autopilot_phase; split_ifs
  · rw [autopilot_velocity]
  · rfl

theorem autopilot_phase_fuel (c : Constants) (env : Env) (s : State) :
    (autopilot_phase c env s).fuel = s.fuel := by
  unfold autopilot_phase; split_ifs
  · rw [autopilot_fuel]
  · rfl

theorem attitude_phase_position (env : Env) (s : State) :
    (attitude_phase env s).position = s.position := by
  unfold attitude_phase; split_ifs <;> rfl

theorem attitude_phase_velocity (env : Env) (s : State) :
    (attitude_phase env s).velocity = s.velocity := by
  unfold attitude_phase; split_ifs <;> rfl

theorem attitude_phase_fuel (env : Env) (s : State) :
    (attitude_phase env s).fuel = s.fuel := by
  unfold attitude_phase; split_ifs <;> rfl

theorem numerical_dynamics_position (c : Constants) (env : Env) (s : State) :
    (numerical_dynamics c env s).position = s.position + s.delta_t • s.velocity := by
  unfold numerical_dynamics
  rw [attitude_phase_position, autopilot_phase_position]; rfl

theorem numerical_dynamics_velocity (c : Constants) (env : Env) (s : State) :
    (numerical_dynamics c env s).velocity =
      s.velocity + s.delta_t • acceleration c env s := by
  unfold numerical_dynamics
  rw [attitude_phase_velocity, autopilot_phase_velocity]; rfl

theorem numerical_dynamics_fuel (c : Constants) (env : Env) (s : State) :
    (numerical_dynamics c env s).fuel = s.fuel := by
  unfold numerical_dynamics
  rw [attitude_phase_fuel, autopilot_phase_fuel]; rfl

/-! ### Concrete inputs used by the witnesses -/

/-- A concrete instantiation of the physical constants (only `MARS_RADIUS`
matters for the witnesses below). -/
noncomputable def c0 : Constants := ⟨1, 1, 3386000, 100, 100, 1, 1, 2, 1⟩

/-- An environment with zero atmosphere, zero thrust, and a safety check
that always says yes. -/
noncomputable def envT : Env :=
  ⟨fun _ => 0, fun _ => 0, fun _ => true, fun s => s.orientation⟩

/-- An environment whose safety check always says no. -/
noncomputable def envF : Env :=
  ⟨fun _ => 0, fun _ => 0, fun _ => false, fun s => s.orientation⟩

/-- A state at altitude 200000 m (for `MARS_RADIUS = 3386000`) descending
radially at 50 m/s, parachute not deployed, both flags off. -/
noncomputable def s8 : State :=
  ⟨⟨3586000, 0, 0⟩, ⟨-50, 0, 0⟩, ⟨0, 0, 0⟩, 1, 0, NOT_DEPLOYED, false, false, 0.1⟩

/-- Like `s8` but at altitude 100000 m with the parachute LOST. -/
noncomputable def sLost : State :=
  ⟨⟨3486000, 0, 0⟩, ⟨-50, 0, 0⟩, ⟨0, 0, 0⟩, 1, 0, LOST, false, false, 0.1⟩

/-- Like `sLost` but with the parachute NOT_DEPLOYED. -/
noncomputable def sND : State :=
  ⟨⟨3486000, 0, 0⟩, ⟨-50, 0, 0⟩, ⟨0, 0, 0⟩, 1, 0, NOT_DEPLOYED, false, false, 0.1⟩

/-- The initial state of scenario 1 of `initialize_simulation` ("descent
from rest at 10km altitude"): zero velocity. -/
noncomputable def sZero : State :=
  ⟨⟨0, -3396000, 0⟩, ⟨0, 0, 0⟩, ⟨0, 0, 90⟩, 1, 0, NOT_DEPLOYED, true, false, 0.1⟩

theorem abs_single (a : ℝ) : vector3d.abs ⟨a, 0, 0⟩ = |a| := by
  unfold vector3d.abs
  rw [show a * a + 0 * 0 + 0 * 0 = a * a by ring, Real.sqrt_mul_self_eq_abs]

theorem norm_single (a : ℝ) (h : 0 < a) : vector3d.norm ⟨a, 0, 0⟩ = ⟨1, 0, 0⟩ := by
  unfold vector3d.norm
  rw [abs_single a, abs_of_pos h]
  ext <;> field_simp

theorem abs_single_pos (a : ℝ) (h : 0 ≤ a) : vector3d.abs ⟨a, 0, 0⟩ = a := by
  rw [abs_single, abs_of_nonneg h]

theorem abs_s8_position : s8.position.abs = 3586000 := by
  rw [show s8.position = ⟨3586000, 0, 0⟩ from rfl]
  exact abs_single_pos 3586000 (by norm_num)

theorem abs_s8_velocity : s8.velocity.abs = 50 := by
  rw [show s8.velocity = ⟨-50, 0, 0⟩ from rfl, abs_single]
  norm_num

theorem Pout_s8 : Pout_const c0 s8 = -1975.25 := by
  unfold Pout_const altitude descent_rate Kh_const Kp_const
  rw [abs_s8_position,
    show s8.position = ⟨3586000, 0, 0⟩ from rfl,
    show s8.velocity = ⟨-50, 0, 0⟩ from rfl,
    norm_single 3586000 (by norm_num)]
  unfold vector3d.dot
  norm_num [c0]

theorem altitude_sLost : altitude c0 sLost = 100000 := by
  unfold altitude
  rw [show sLost.position = ⟨3486000, 0, 0⟩ from rfl,
    abs_single_pos 3486000 (by norm_num)]
  norm_num [c0]

theorem altitude_sND : altitude c0 sND = 100000 := by
  unfold altitude
  rw [show sND.position = ⟨3486000, 0, 0⟩ from rfl,
    abs_single_pos 3486000 (by norm_num)]
  norm_num [c0]

/-! ### Claim theorems -/

/-- C3: for every state with nonzero position, the autopilot computes
altitude = |position| − planet_radius and descent_rate = velocity · unit(position),
forms P = Kp × (−(0.5 + Kh × altitude + descent_rate)) with Kh = 0.02,
Kp = 0.5, Offset = 0.5, and sets the throttle by the three-region map
(0 if P ≤ −Offset, Offset + P if P < 1 − Offset, else 1); P = 0 maps to
throttle = Offset. -/
theorem C3_autopilot_control_law (c : Constants) (env : Env) (s : State)
    (hpos : s.position.abs ≠ 0) :
    Kh_const = 0.02 ∧ Kp_const = 0.5 ∧ Offset = 0.5 ∧
    Pout_const c s =
      Kp_const * (-(0.5 + Kh_const * (s.position.abs - c.MARS_RADIUS) +
        s.velocity.dot s.position.norm)) ∧
    (autopilot c env s).throttle =
      (if Pout_const c s ≤ -Offset then 0
       else if Pout_const c s < 1 - Offset then Offset + Pout_const c s
       else 1) ∧
    (Pout_const c s = 0 → (autopilot c env s).throttle = Offset) := by
  refine ⟨rfl, rfl, rfl, rfl, autopilot_throttle_eq c env s, ?_⟩
  intro h0
  rw [autopilot_throttle_eq c env s, h0]
  unfold Offset
  norm_num

/-- Witness for C3 at the concrete state `s8`. -/
theorem C3_witness :
    s8.position.abs ≠ 0 ∧
    (Kh_const = 0.02 ∧ Kp_const = 0.5 ∧ Offset = 0.5 ∧
     Pout_const c0 s8 =
       Kp_const * (-(0.5 + Kh_const * (s8.position.abs - c0.MARS_RADIUS) +
         s8.velocity.dot s8.position.norm)) ∧
     (autopilot c0 envT s8).throttle =
       (if Pout_const c0 s8 ≤ -Offset then 0
        else if Pout_const c0 s8 < 1 - Offset then Offset + Pout_const c0 s8
        else 1) ∧
     (Pout_const c0 s8 = 0 → (autopilot c0 envT s8).throttle = Offset)) := by
  have h : s8.position.abs ≠ 0 := by rw [abs_s8_position]; norm_num
  exact ⟨h, C3_autopilot_control_law c0 envT s8 h⟩

/-- C4: for every state with nonzero position the throttle written by the
autopilot lies in [0,1], with saturation at both ends. -/
theorem C4_throttle_in_unit_interval (c : Constants) (env : Env) (s : State)
    (hpos : s.position.abs ≠ 0) :
    0 ≤ (autopilot c env s).throttle ∧ (autopilot c env s).throttle ≤ 1 ∧
    (Pout_const c s ≤ -Offset → (autopilot c env s).throttle = 0) ∧
    (1 - Offset ≤ Pout_const c s → (autopilot c env s).throttle = 1) := by
  rw [autopilot_throttle_eq c env s]
  unfold Offset
  split_ifs with h1 h2
  · exact ⟨le_refl 0, by norm_num, fun _ => rfl, fun h => by linarith⟩
  · push_neg at h1
    exact ⟨by linarith, by linarith, fun h => by linarith, fun h => by linarith⟩
  · push_neg at h1 h2
    exact ⟨by norm_num, le_refl 1, fun h => by linarith, fun _ => rfl⟩

/-- Witness for C4 at the concrete state `s8`. -/
theorem C4_witness :
    s8.position.abs ≠ 0 ∧
    (0 ≤ (autopilot c0 envT s8).throttle ∧ (autopilot c0 envT s8).throttle ≤ 1 ∧
     (Pout_const c0 s8 ≤ -Offset → (autopilot c0 envT s8).throttle = 0) ∧
     (1 - Offset ≤ Pout_const c0 s8 → (autopilot c0 envT s8).throttle = 1)) := by
  have h : s8.position.abs ≠ 0 := by rw [abs_s8_position]; norm_num
  exact ⟨h, C4_throttle_in_unit_interval c0 envT s8 h⟩

/-- C5 counterexample: at a state whose parachute is LOST, at altitude
100000 ≤ 150000, with the safety check returning true, the autopilot sets
the status back to DEPLOYED — a backward transition, because the code has
no check that the status is currently NOT_DEPLOYED. -/
theorem C5_counterexample :
    sLost.parachute_status = LOST ∧
    (autopilot c0 envT sLost).parachute_status = DEPLOYED := by
  refine ⟨rfl, ?_⟩
  rw [autopilot_status_eq,
    if_pos ⟨by rw [altitude_sLost]; norm_num, rfl⟩]

/-- C5 amended: the autopilot writes DEPLOYED exactly when
altitude ≤ 150000 and the safety check returns true, regardless of the
current status, and otherwise leaves the status unchanged; it never writes
NOT_DEPLOYED or LOST. -/
theorem C5_amended_chute_rule (c : Constants) (env : Env) (s : State) :
    ((autopilot c env s).parachute_status = DEPLOYED ∨
     (autopilot c env s).parachute_status = s.parachute_status) ∧
    (s.parachute_status = DEPLOYED → (autopilot c env s).parachute_status = DEPLOYED) ∧
    (altitude c s ≤ 150000 →
      env.safe_to_deploy_parachute (autopilot_control c s) = true →
      (autopilot c env s).parachute_status = DEPLOYED) ∧
    (¬(altitude c s ≤ 150000 ∧
        env.safe_to_deploy_parachute (autopilot_control c s) = true) →
      (autopilot c env s).parachute_status = s.parachute_status) := by
  rw [autopilot_status_eq]
  split_ifs with h
  · exact ⟨Or.inl rfl, fun _ => rfl, fun _ _ => rfl, fun hn => absurd h hn⟩
  · exact ⟨Or.inr rfl, fun hd => hd, fun ha hs => absurd ⟨ha, hs⟩ h, fun _ => rfl⟩

/-- Witness for the amended C5 at the concrete state `sLost`. -/
theorem C5_amended_witness :
    altitude c0 sLost ≤ 150000 ∧
    envT.safe_to_deploy_parachute (autopilot_control c0 sLost) = true ∧
    (autopilot c0 envT sLost).parachute_status = DEPLOYED := by
  have h1 : altitude c0 sLost ≤ 150000 := by rw [altitude_sLost]; norm_num
  exact ⟨h1, rfl, (C5_amended_chute_rule c0 envT sLost).2.2.1 h1 rfl⟩

/-- C6: a DEPLOYED parachute is never reverted by the autopilot: if the
deploy condition holds at the first tick the status becomes DEPLOYED, a
second tick whose safety check always answers false leaves it DEPLOYED,
and in general any autopilot call preserves a DEPLOYED status. -/
theorem C6_parachute_monotone (c : Constants) (env1 env2 : Env) (s : State)
    (hnd : s.parachute_status = NOT_DEPLOYED)
    (halt : altitude c s ≤ 150000)
    (hsafe : env1.safe_to_deploy_parachute (autopilot_control c s) = true)
    (hno : ∀ t, env2.safe_to_deploy_parachute t = false) :
    (autopilot c env1 s).parachute_status = DEPLOYED ∧
    (autopilot c env2 (autopilot c env1 s)).parachute_status = DEPLOYED ∧
    (∀ (env : Env) (t : State), t.parachute_status = DEPLOYED →
      (autopilot c env t).parachute_status = DEPLOYED) := by
  have mono : ∀ (env : Env) (t : State), t.parachute_status = DEPLOYED →
      (autopilot c env t).parachute_status = DEPLOYED := by
    intro env t ht
    rw [autopilot_status_eq]
    split_ifs
    · rfl
    · exact ht
  have h1 : (autopilot c env1 s).parachute_status = DEPLOYED := by
    rw [autopilot_status_eq, if_pos ⟨halt, hsafe⟩]
  exact ⟨h1, mono env2 _ h1, mono⟩

/-- Witness for C6 at the concrete state `sND`, with a first environment
whose safety check answers true and a second whose check answers false. -/
theorem C6_witness :
    sND.parachute_status = NOT_DEPLOYED ∧ altitude c0 sND ≤ 150000 ∧
    envT.safe_to_deploy_parachute (autopilot_control c0 sND) = true ∧
    (∀ t, envF.safe_to_deploy_parachute t = false) ∧
    (autopilot c0 envT sND).parachute_status = DEPLOYED ∧
    (autopilot c0 envF (autopilot c0 envT sND)).parachute_status = DEPLOYED := by
  have halt : altitude c0 sND ≤ 150000 := by rw [altitude_sND]; norm_num
  have h := C6_parachute_monotone c0 envT envF sND rfl halt rfl (fun _ => rfl)
  exact ⟨rfl, halt, rfl, fun _ => rfl, h.1, h.2.1⟩

/-- C8 counterexample: at altitude 200000 m and descent rate −50 m/s the
code's P is −1975.25, not the −1725.25 the claim states. -/
theorem C8_counterexample : Pout_const c0 s8 ≠ -1725.25 := by
  rw [Pout_s8]; norm_num

/-- C8 amended: at altitude 200000 m and descent rate −50 m/s the autopilot
computes P = 0.5 × (−(0.5 + 0.02 × 200000 − 50)) = −1975.25 and sets
throttle = 0. -/
theorem C8_amended (env : Env) :
    Pout_const c0 s8 = -1975.25 ∧ (autopilot c0 env s8).throttle = 0 := by
  have h : Pout_const c0 s8 ≤ -Offset := by
    rw [Pout_s8]; unfold Offset; norm_num
  refine ⟨Pout_s8, ?_⟩
  rw [autopilot_throttle_eq c0 env s8, if_pos h]

/-- C10: the throttle written by the autopilot is a pure function of the
state it reads (position and velocity, which it never modifies): running
the autopilot again on its own output yields the same throttle. -/
theorem C10_throttle_pure (c : Constants) (env : Env) (s : State) :
    (autopilot c env (autopilot c env s)).throttle =
      (autopilot c env s).throttle := by
  rw [autopilot_throttle_eq c env (autopilot c env s),
    autopilot_throttle_eq c env s,
    Pout_const_congr c s (autopilot c env s)
      (autopilot_position c env s) (autopilot_velocity c env s)]

theorem acceleration_free_fall (c : Constants) (env : Env) (s : State)
    (hdensity : env.atmospheric_density s.position = 0)
    (hthrust : env.thrust_wrt_world s = 0)
    (hchute : s.parachute_status ≠ DEPLOYED) :
    acceleration c env s = gravity_acceleration c s := by
  unfold acceleration
  rw [if_neg hchute]
  unfold drag_lander_acceleration thrust_acceleration
  rw [hdensity, hthrust]
  ext <;> simp

/-- C1: one integrator call performs one forward Euler step in the stated
order — new position = old position + delta_t × old velocity, new velocity
= old velocity + delta_t × the acceleration computed from the old state —
and in pure free-fall (zero density, zero thrust, parachute not deployed)
the velocity update is the analytic step v + delta_t × (−G M / r²) r̂. -/
theorem C1_euler_step (c : Constants) (env : Env) (s : State) :
    (numerical_dynamics c env s).position = s.position + s.delta_t • s.velocity ∧
    (numerical_dynamics c env s).velocity =
      s.velocity + s.delta_t • acceleration c env s ∧
    (env.atmospheric_density s.position = 0 → env.thrust_wrt_world s = 0 →
      s.parachute_status ≠ DEPLOYED →
      (numerical_dynamics c env s).velocity =
        s.velocity + s.delta_t •
          ((-(c.GRAVITY * c.MARS_MASS) / (s.position.abs * s.position.abs)) •
            s.position.norm)) := by
  refine ⟨numerical_dynamics_position c env s, numerical_dynamics_velocity c env s, ?_⟩
  intro hd ht hp
  rw [numerical_dynamics_velocity, acceleration_free_fall c env s hd ht hp]
  unfold gravity_acceleration
  ext <;> simp

/-- Witness for C1 at the concrete state `s8` under the zero-atmosphere,
zero-thrust environment `envT`. -/
theorem C1_witness :
    envT.atmospheric_density s8.position = 0 ∧ envT.thrust_wrt_world s8 = 0 ∧
    s8.parachute_status ≠ DEPLOYED ∧
    (numerical_dynamics c0 envT s8).velocity =
      s8.velocity + s8.delta_t •
        ((-(c0.GRAVITY * c0.MARS_MASS) / (s8.position.abs * s8.position.abs)) •
          s8.position.norm) := by
  have hp : s8.parachute_status ≠ DEPLOYED := by
    rw [show s8.parachute_status = NOT_DEPLOYED from rfl]
    simp
  exact ⟨rfl, rfl, hp, (C1_euler_step c0 envT s8).2.2 rfl rfl hp⟩

/-- The total mass as the spec words it: dry mass plus
fuel × capacity × fuel density. -/
def spec_mass (c : Constants) (s : State) : ℝ :=
  c.UNLOADED_LANDER_MASS + s.fuel * c.FUEL_CAPACITY * c.FUEL_DENSITY

/-- The gravity acceleration as the spec words it:
−G × planet_mass × unit(position) / |position|². -/
noncomputable def spec_gravity (c : Constants) (s : State) : vector3d :=
  (-(c.GRAVITY * c.MARS_MASS * (1 / (s.position.abs * s.position.abs)))) •
    s.position.norm

/-- The lander drag acceleration as the spec words it: ½ × density × Cd ×
area × |velocity|² × unit(velocity) / mass, with area = π × size². -/
noncomputable def spec_lander_drag (c : Constants) (env : Env) (s : State) : vector3d :=
  ((0.5 * env.atmospheric_density s.position * c.DRAG_COEF_LANDER *
      (3.141592654 * (c.LANDER_SIZE * c.LANDER_SIZE)) *
      (s.velocity.abs * s.velocity.abs)) / spec_mass c s) • s.velocity.norm

/-- The chute drag acceleration as the spec words it, with the larger area
factor 20 × size². -/
noncomputable def spec_chute_drag (c : Constants) (env : Env) (s : State) : vector3d :=
  ((0.5 * env.atmospheric_density s.position * c.DRAG_COEF_CHUTE *
      (20 * (c.LANDER_SIZE * c.LANDER_SIZE)) *
      (s.velocity.abs * s.velocity.abs)) / spec_mass c s) • s.velocity.norm

/-- The thrust acceleration as the spec words it: thrust in world frame
divided by the mass. -/
noncomputable def spec_thrust (c : Constants) (env : Env) (s : State) : vector3d :=
  ((1 : ℝ) / spec_mass c s) • env.thrust_wrt_world s

open Classical in
/-- The net acceleration as the spec and claim C2 word it: gravity minus
lander drag plus thrust, with chute drag additionally subtracted exactly
when the parachute is DEPLOYED. -/
noncomputable def spec_net_acceleration (c : Constants) (env : Env) (s : State) :
    vector3d :=
  if s.parachute_status = DEPLOYED then
    spec_gravity c s - spec_lander_drag c env s - spec_chute_drag c env s +
      spec_thrust c env s
  else
    spec_gravity c s - spec_lander_drag c env s + spec_thrust c env s

/-- C2: for every state with nonzero position and velocity, the integrator
advances the velocity by delta_t times the net acceleration exactly as the
claim composes it (gravity − lander drag [− chute drag if DEPLOYED] +
thrust, with the stated mass and drag formulas), and the chute area factor
20 exceeds the lander cross-section factor π = 3.141592654. -/
theorem C2_net_acceleration (c : Constants) (env : Env) (s : State)
    (hr : s.position.abs ≠ 0) (hv : s.velocity.abs ≠ 0) :
    (3.141592654 : ℝ) < 20 ∧
    (numerical_dynamics c env s).velocity =
      s.velocity + s.delta_t • spec_net_acceleration c env s := by
  refine ⟨by norm_num, ?_⟩
  have hacc : acceleration c env s = spec_net_acceleration c env s := by
    unfold acceleration spec_net_acceleration gravity_acceleration
      drag_lander_acceleration drag_chute_acceleration thrust_acceleration mass
      spec_gravity spec_lander_drag spec_chute_drag spec_thrust spec_mass
    split_ifs with h <;> ext <;> simp <;> ring
  rw [numerical_dynamics_velocity, hacc]

/-- Witness for C2 at the concrete state `s8`. -/
theorem C2_witness :
    s8.position.abs ≠ 0 ∧ s8.velocity.abs ≠ 0 ∧
    ((3.141592654 : ℝ) < 20 ∧
     (numerical_dynamics c0 envT s8).velocity =
       s8.velocity + s8.delta_t • spec_net_acceleration c0 envT s8) := by
  have hr : s8.position.abs ≠ 0 := by rw [abs_s8_position]; norm_num
  have hv : s8.velocity.abs ≠ 0 := by rw [abs_s8_velocity]; norm_num
  exact ⟨hr, hv, C2_net_acceleration c0 envT s8 hr hv⟩

/-- C9: one integrator call never modifies the fuel, and when both
`autopilot_enabled` and `stabilized_attitude` are false it modifies only
position and velocity, leaving throttle, parachute status, orientation,
fuel, both flags, and delta_t unchanged. -/
theorem C9_frame_conditions (c : Constants) (env : Env) (s : State) :
    (numerical_dynamics c env s).fuel = s.fuel ∧
    (s.autopilot_enabled = false → s.stabilized_attitude = false →
      ((numerical_dynamics c env s).throttle = s.throttle ∧
       (numerical_dynamics c env s).parachute_status = s.parachute_status ∧
       (numerical_dynamics c env s).orientation = s.orientation ∧
       (numerical_dynamics c env s).stabilized_attitude = s.stabilized_attitude ∧
       (numerical_dynamics c env s).autopilot_enabled = s.autopilot_enabled ∧
       (numerical_dynamics c env s).delta_t = s.delta_t)) := by
  refine ⟨numerical_dynamics_fuel c env s, ?_⟩
  intro ha hs
  have h2 : (euler_update c env s).autopilot_enabled = false := ha
  have h3 : (euler_update c env s).stabilized_attitude = false := hs
  have h4 : autopilot_phase c env (euler_update c env s) = euler_update c env s := by
    unfold autopilot_phase
    rw [h2]
    simp
  have h5 : numerical_dynamics c env s = euler_update c env s := by
    unfold numerical_dynamics
    rw [h4]
    unfold attitude_phase
    rw [h3]
    simp
  rw [h5]
  exact ⟨rfl, rfl, rfl, rfl, rfl, rfl⟩

/-- Witness for C9 at the concrete state `s8`, whose flags are both off. -/
theorem C9_witness :
    s8.autopilot_enabled = false ∧ s8.stabilized_attitude = false ∧
    ((numerical_dynamics c0 envT s8).throttle = s8.throttle ∧
     (numerical_dynamics c0 envT s8).parachute_status = s8.parachute_status ∧
     (numerical_dynamics c0 envT s8).orientation = s8.orientation ∧
     (numerical_dynamics c0 envT s8).stabilized_attitude = s8.stabilized_attitude ∧
     (numerical_dynamics c0 envT s8).autopilot_enabled = s8.autopilot_enabled ∧
     (numerical_dynamics c0 envT s8).delta_t = s8.delta_t) := by
  exact ⟨rfl, rfl, (C9_frame_conditions c0 envT s8).2 rfl rfl⟩

/-- C7: under the fail-fast guard on normalization that the spec mandates,
every tick whose incoming velocity is the zero vector aborts with the
arithmetic-domain error (`none`): the integrator normalizes the velocity
unconditionally (`lander.cpp` line 54), before any use of the drag terms
and regardless of the parachute status.  The unguarded C++ code instead
divides by zero there and silently propagates NaN. -/
theorem C7_zero_velocity_normalization (c : Constants) (env : Env) (s : State)
    (hv : s.velocity = 0) :
    numerical_dynamicsChecked c env s = none := by
  have habs : s.velocity.abs = 0 := by
    rw [hv, vector3d.zero_def]
    unfold vector3d.abs
    norm_num
  have hnc : normChecked s.velocity = none := by
    unfold normChecked
    rw [if_pos habs]
  unfold numerical_dynamicsChecked
  cases h : normChecked s.position <;> simp [h, hnc]

/-- Witness for C7 at the scenario-1 initial state (zero velocity). -/
theorem C7_witness :
    sZero.velocity = 0 ∧ numerical_dynamicsChecked c0 envT sZero = none :=
  ⟨rfl, C7_zero_velocity_normalization c0 envT sZero rfl⟩

end Lander
